import Mathlib

/-!
Verification of the DDL reconciliation core of `catalog/resource_sql_table.go`
(terraform-provider-databricks): the table/column entity model, identifier and
literal formatting, the managed-property classifier, the `CREATE` statement
builder, the diff engine with its column reconciliation sub-algorithm, and the
two pre-flight column validators.

Modelling conventions:
* Go strings are Lean `String`s; Go slices are Lean `List`s.
* Go `map[string]string` values (`Properties`, `Options`) are association
  lists `List (String × String)`; the data model guarantees unique keys.
  Go map iteration order is unspecified, so wherever the source ranges over a
  map we fix insertion (list) order; no claim below depends on that order.
* `reflect.DeepEqual` on two maps is extensional map equality, modelled by
  `mapsDeepEqual` (equal key sets and equal values at every key).
* The name-keyed maps the column algorithms build (`nameToOldColumn`,
  `oldColsNameToMap`, ...) are modelled by association-list lookups over the
  originating list; column names are unique within a table, making this
  equivalent to Go's last-write-wins map construction.
* Functions that cannot fail in the source keep their `error` slot as an
  `Option String` that is always `none`, mirroring `return statements, nil`.
-/

/-- One column of a table, from `SqlColumnInfo` (fields `name`, `type_text`,
`comment`, `nullable`). The raw "old column" attribute maps that the
validators receive (`map[string]interface{}` with keys `name`/`type`/
`nullable`/`comment`) carry exactly these four attributes, so the same
structure models both. -/
structure SqlColumnInfo where
  Name : String
  TypeText : String
  Comment : String
  Nullable : Bool
deriving DecidableEq

instance : Inhabited SqlColumnInfo :=
  ⟨{ Name := "", TypeText := "", Comment := "", Nullable := false }⟩

/-- The table/view description, from `SqlTableInfo` (the pure value fields;
the execution handles `ClusterID`/`WarehouseID`/`Owner`/`exec`/`sqlExec` play
no role in statement generation and are omitted). -/
structure SqlTableInfo where
  Name : String
  CatalogName : String
  SchemaName : String
  TableType : String
  DataSourceFormat : String
  ColumnInfos : List SqlColumnInfo
  Partitions : List String
  ClusterKeys : List String
  StorageLocation : String
  StorageCredentialName : String
  ViewDefinition : String
  Comment : String
  Properties : List (String × String)
  Options : List (String × String)
deriving DecidableEq

/-- `FullName`: `fmt.Sprintf("%s.%s.%s", CatalogName, SchemaName, Name)`. -/
def FullName (ti : SqlTableInfo) : String :=
  ti.CatalogName ++ "." ++ ti.SchemaName ++ "." ++ ti.Name

/-- `SQLFullName`: each segment independently backtick-quoted. -/
def SQLFullName (ti : SqlTableInfo) : String :=
  "`" ++ ti.CatalogName ++ "`.`" ++ ti.SchemaName ++ "`.`" ++ ti.Name ++ "`"

/-- `strings.ReplaceAll(s, "\\'", "'")` over the character list: a left-to-right
non-overlapping scan replacing each backslash-quote pair by a bare quote. -/
def unescapeQuotes : List Char → List Char
  | [] => []
  | [c] => [c]
  | c1 :: c2 :: rest =>
    if c1 = '\\' && c2 = '\'' then '\'' :: unescapeQuotes rest
    else c1 :: unescapeQuotes (c2 :: rest)

/-- `strings.ReplaceAll(s, "'", "\\'")` over the character list: every bare
quote becomes a backslash-quote pair. -/
def escapeQuotes : List Char → List Char
  | [] => []
  | c :: rest =>
    if c = '\'' then '\\' :: '\'' :: escapeQuotes rest
    else c :: escapeQuotes rest

/-- `parseComment`: first unescape `\'` to `'`, then escape `'` to `\'`. -/
def parseComment (s : String) : String :=
  String.mk (escapeQuotes (unescapeQuotes s.data))

/-- The fixed managed-key list from `sqlTableIsManagedProperty`'s map literal. -/
def managedPropsKeys : List String :=
  [ "clusteringColumns",
    "delta.lastCommitTimestamp",
    "delta.lastUpdateVersion",
    "delta.minReaderVersion",
    "delta.minWriterVersion",
    "delta.columnMapping.maxColumnId",
    "delta.enableDeletionVectors",
    "delta.enableRowTracking",
    "delta.feature.clustering",
    "delta.feature.changeDataFeed",
    "delta.feature.deletionVectors",
    "delta.feature.domainMetadata",
    "delta.feature.liquid",
    "delta.feature.rowTracking",
    "delta.feature.v2Checkpoint",
    "delta.feature.timestampNtz",
    "delta.liquid.clusteringColumns",
    "delta.rowTracking.materializedRowCommitVersionColumnName",
    "delta.rowTracking.materializedRowIdColumnName",
    "delta.checkpoint.writeStatsAsJson",
    "delta.checkpoint.writeStatsAsStruct",
    "delta.checkpointPolicy",
    "view.catalogAndNamespace.numParts",
    "view.catalogAndNamespace.part.0",
    "view.catalogAndNamespace.part.1",
    "view.query.out.col.0",
    "view.query.out.numCols",
    "view.referredTempFunctionsNames",
    "view.referredTempViewNames",
    "view.sqlConfig.spark.sql.hive.convertCTAS",
    "view.sqlConfig.spark.sql.legacy.createHiveTableByDefault",
    "view.sqlConfig.spark.sql.parquet.compression.codec",
    "view.sqlConfig.spark.sql.session.timeZone",
    "view.sqlConfig.spark.sql.sources.commitProtocolClass",
    "view.sqlConfig.spark.sql.sources.default",
    "view.sqlConfig.spark.sql.streaming.stopTimeout" ]

/-- `sqlTableIsManagedProperty`: membership in the fixed key set (a Go map
lookup defaulting to `false`). -/
def sqlTableIsManagedProperty (key : String) : Bool :=
  managedPropsKeys.contains key

/-- `getWrappedColumnName`: backtick-wrap the column name. -/
def getWrappedColumnName (ci : SqlColumnInfo) : String :=
  "`" ++ ci.Name ++ "`"

/-- `serializeColumnInfo` (the receiver `ti` is unused in the source). -/
def serializeColumnInfo (col : SqlColumnInfo) : String :=
  let notNull := if col.Nullable then "" else " NOT NULL"
  let comment :=
    if col.Comment = "" then "" else " COMMENT '" ++ parseComment col.Comment ++ "'"
  getWrappedColumnName col ++ " " ++ col.TypeText ++ notNull ++ comment

/-- `serializeColumnInfos`: comma-join of the per-column fragments. -/
def serializeColumnInfos (ti : SqlTableInfo) : String :=
  String.intercalate ", " (ti.ColumnInfos.map serializeColumnInfo)

/-- `serializeProperties`: `'k'='v'` pairs over non-managed keys only. -/
def serializeProperties (ti : SqlTableInfo) : String :=
  String.intercalate ", "
    ((ti.Properties.filter (fun p => !(sqlTableIsManagedProperty p.1))).map
      (fun p => "'" ++ p.1 ++ "'='" ++ p.2 ++ "'"))

/-- `serializeOptions`: `'k'='v'` pairs over non-managed keys only. -/
def serializeOptions (ti : SqlTableInfo) : String :=
  String.intercalate ", "
    ((ti.Options.filter (fun p => !(sqlTableIsManagedProperty p.1))).map
      (fun p => "'" ++ p.1 ++ "'='" ++ p.2 ++ "'"))

/-- `buildLocationStatement`: `LOCATION '<uri>'` with an optional
`WITH (CREDENTIAL ...)` suffix. -/
def buildLocationStatement (ti : SqlTableInfo) : String :=
  "LOCATION '" ++ ti.StorageLocation ++ "'" ++
    (if ti.StorageCredentialName = "" then ""
     else " WITH (CREDENTIAL `" ++ ti.StorageCredentialName ++ "`)")

/-- `getTableTypeString`: `VIEW` for views, otherwise `TABLE`. -/
def getTableTypeString (ti : SqlTableInfo) : String :=
  if ti.TableType = "VIEW" then "VIEW" else "TABLE"

/-- First fragment of `buildTableCreateStatement`:
`CREATE [EXTERNAL ]{TABLE|VIEW} <sql-full-name>`. -/
def headFragment (ti : SqlTableInfo) : List String :=
  ["CREATE " ++ (if ti.TableType = "EXTERNAL" then "EXTERNAL " else "") ++
    getTableTypeString ti ++ " " ++ SQLFullName ti]

/-- Column-list fragment, present when there is at least one column. -/
def columnsFragment (ti : SqlTableInfo) : List String :=
  if 0 < ti.ColumnInfos.length then [" (" ++ serializeColumnInfos ti ++ ")"] else []

/-- `USING <format>` fragment: non-views with a non-empty format only. -/
def usingFragment (ti : SqlTableInfo) : List String :=
  if ti.TableType = "VIEW" then []
  else if ti.DataSourceFormat = "" then []
  else ["\nUSING " ++ ti.DataSourceFormat]

/-- `PARTITIONED BY (<names>)` fragment; names joined raw. -/
def partitionsFragment (ti : SqlTableInfo) : List String :=
  if 0 < ti.Partitions.length then
    ["\nPARTITIONED BY (" ++ String.intercalate ", " ti.Partitions ++ ")"]
  else []

/-- `CLUSTER BY (<names>)` fragment; names joined raw. -/
def clusterKeysFragment (ti : SqlTableInfo) : List String :=
  if 0 < ti.ClusterKeys.length then
    ["\nCLUSTER BY (" ++ String.intercalate ", " ti.ClusterKeys ++ ")"]
  else []

/-- `COMMENT '<escaped>'` fragment, present for a non-empty comment. -/
def commentFragment (ti : SqlTableInfo) : List String :=
  if ti.Comment = "" then [] else ["\nCOMMENT '" ++ parseComment ti.Comment ++ "'"]

/-- `TBLPROPERTIES (...)` fragment: gated on the raw map being non-empty
(`len(ti.Properties) > 0`), while the body lists non-managed pairs only. -/
def propsFragment (ti : SqlTableInfo) : List String :=
  if 0 < ti.Properties.length then
    ["\nTBLPROPERTIES (" ++ serializeProperties ti ++ ")"]
  else []

/-- `OPTIONS (...)` fragment: gated on the raw map being non-empty
(`len(ti.Options) > 0`), while the body lists non-managed pairs only. -/
def optionsFragment (ti : SqlTableInfo) : List String :=
  if 0 < ti.Options.length then ["\nOPTIONS (" ++ serializeOptions ti ++ ")"] else []

/-- Final clause: `LOCATION ...` for non-views with a location, `AS <query>`
for views. -/
def locationOrViewFragment (ti : SqlTableInfo) : List String :=
  if ti.TableType = "VIEW" then ["\nAS " ++ ti.ViewDefinition]
  else if ti.StorageLocation = "" then []
  else ["\n" ++ buildLocationStatement ti]

/-- The `statements` slice assembled by `buildTableCreateStatement`, one
source `append` block per fragment, in source order. -/
def buildTableCreateFragments (ti : SqlTableInfo) : List String :=
  headFragment ti ++ columnsFragment ti ++ usingFragment ti ++
    partitionsFragment ti ++ clusterKeysFragment ti ++ commentFragment ti ++
    propsFragment ti ++ optionsFragment ti ++ locationOrViewFragment ti ++ [";"]

/-- `buildTableCreateStatement`: `strings.Join(statements, "")`. -/
def buildTableCreateStatement (ti : SqlTableInfo) : String :=
  String.join (buildTableCreateFragments ti)

/-- Lookup in an association-list-modelled Go map: `v, ok := m[key]` is
`mapLookup m key = some v` / `= none`. -/
def mapLookup (m : List (String × String)) (key : String) : Option String :=
  (m.find? (fun p => p.1 == key)).map (fun p => p.2)

/-- `reflect.DeepEqual` on two `map[string]string` values: equal key sets with
equal values at every key, phrased as mutual lookup agreement. -/
def mapsDeepEqual (a b : List (String × String)) : Bool :=
  a.all (fun p => mapLookup b p.1 == mapLookup a p.1) &&
    b.all (fun p => mapLookup a p.1 == mapLookup b p.1)

/-- The `ADD COLUMN` statement built for the desired column `c` at desired
index `i` inside `addOrRemoveColumnStatements`: `FIRST` at index 0, otherwise
`AFTER` the (raw, unwrapped) name of the desired column one index back.
`List.getD` stands in for the always-in-bounds Go index expression
`ti.ColumnInfos[i-1]`. -/
def addColumnStmt (ti : SqlTableInfo) (typestring : String) (i : Nat)
    (c : SqlColumnInfo) : String :=
  if i = 0 then
    "ALTER " ++ typestring ++ " " ++ SQLFullName ti ++ " ADD COLUMN " ++
      serializeColumnInfo c ++ " FIRST"
  else
    "ALTER " ++ typestring ++ " " ++ SQLFullName ti ++ " ADD COLUMN " ++
      serializeColumnInfo c ++ " AFTER " ++ (ti.ColumnInfos.getD (i - 1) default).Name

/-- The `for i, newCi := range ti.ColumnInfos` loop of
`addOrRemoveColumnStatements`, over the index-paired desired columns: one
`ADD COLUMN` statement per desired column whose name is absent from the old
name set. -/
def addColumnLoop (ti : SqlTableInfo) (oldNames : List String)
    (typestring : String) : List (Nat × SqlColumnInfo) → List String
  | [] => []
  | (i, c) :: rest =>
    if oldNames.contains c.Name then addColumnLoop ti oldNames typestring rest
    else addColumnStmt ti typestring i c :: addColumnLoop ti oldNames typestring rest

/-- `addOrRemoveColumnStatements`: collect old columns whose names left the
desired set into one `DROP COLUMN IF EXISTS` statement, then add each new
desired column individually. The source ranges over the `nameToOldColumn`
map; with unique column names this is the old column list itself. -/
def addOrRemoveColumnStatements (ti oldti : SqlTableInfo)
    (statements : List String) (typestring : String) : List String :=
  let oldNames := oldti.ColumnInfos.map (fun c => c.Name)
  let newNames := ti.ColumnInfos.map (fun c => c.Name)
  let removeColumnStatements :=
    (oldti.ColumnInfos.filter (fun c => !(newNames.contains c.Name))).map
      getWrappedColumnName
  let statements1 :=
    if 0 < removeColumnStatements.length then
      statements ++
        ["ALTER " ++ typestring ++ " " ++ SQLFullName ti ++
          " DROP COLUMN IF EXISTS (" ++
          String.intercalate ", " removeColumnStatements ++ ")"]
    else statements
  statements1 ++ addColumnLoop ti oldNames typestring ti.ColumnInfos.enum

/-- The position-paired loop body of `alterExistingColumnStatements`: rename,
comment and nullability changes for one `(new, old)` column pair, in source
order. -/
def alterExistingColumnLoop (ti : SqlTableInfo) (typestring : String) :
    List (SqlColumnInfo × SqlColumnInfo) → List String
  | [] => []
  | (ci, oldCi) :: rest =>
    (if ci.Name ≠ oldCi.Name then
      ["ALTER " ++ typestring ++ " " ++ SQLFullName ti ++ " RENAME COLUMN " ++
        getWrappedColumnName oldCi ++ " to " ++ getWrappedColumnName ci]
     else []) ++
    (if ci.Comment ≠ oldCi.Comment then
      ["ALTER " ++ typestring ++ " " ++ SQLFullName ti ++ " ALTER COLUMN " ++
        getWrappedColumnName ci ++ " COMMENT '" ++ parseComment ci.Comment ++ "'"]
     else []) ++
    (if ci.Nullable ≠ oldCi.Nullable then
      ["ALTER " ++ typestring ++ " " ++ SQLFullName ti ++ " ALTER COLUMN " ++
        getWrappedColumnName ci ++ " " ++
        (if ci.Nullable then "DROP" else "SET") ++ " NOT NULL"]
     else []) ++
    alterExistingColumnLoop ti typestring rest

/-- `alterExistingColumnStatements`: positional attribute diff over the paired
column lists (the Go loop indexes `oldti.ColumnInfos[i]`; the caller only
reaches this path with equal column counts, where `zip` pairs every index). -/
def alterExistingColumnStatements (ti oldti : SqlTableInfo)
    (statements : List String) (typestring : String) : List String :=
  statements ++
    alterExistingColumnLoop ti typestring (ti.ColumnInfos.zip oldti.ColumnInfos)

/-- `getStatementsForColumnDiffs`: dispatch on column-count equality. -/
def getStatementsForColumnDiffs (ti oldti : SqlTableInfo)
    (statements : List String) (typestring : String) : List String :=
  if ti.ColumnInfos.length ≠ oldti.ColumnInfos.length then
    addOrRemoveColumnStatements ti oldti statements typestring
  else
    alterExistingColumnStatements ti oldti statements typestring

/-- The `removeProps` slice computed inside `diff`'s property branch: every
key present in the previous map and absent from the desired map (no managed
filter is applied here). -/
def diffRemoveProps (ti oldti : SqlTableInfo) : List String :=
  (oldti.Properties.filter (fun p => mapLookup ti.Properties p.1 == none)).map
    (fun p => p.1)

/-- `diff(oldti)` on receiver `ti` (desired first, previous second): kind
specific attribute changes, then comment, then properties, then column
changes; the Go `if !cond { branchA } / fallthrough` shapes become
`if cond then skip else branchA`. The error result is literally `nil` on the
single return path. -/
def diff (ti oldti : SqlTableInfo) : List String × Option String :=
  let statements : List String := []
  let typestring := getTableTypeString ti
  let statements :=
    if ti.TableType = "VIEW" then
      if ti.ViewDefinition ≠ oldti.ViewDefinition then
        statements ++ ["ALTER VIEW " ++ SQLFullName ti ++ " AS " ++ ti.ViewDefinition]
      else statements
    else
      let s1 :=
        if ti.StorageLocation ≠ oldti.StorageLocation then
          statements ++
            ["ALTER TABLE " ++ SQLFullName ti ++ " SET " ++ buildLocationStatement ti]
        else statements
      if ti.ClusterKeys ≠ oldti.ClusterKeys then
        s1 ++ ["ALTER TABLE " ++ SQLFullName ti ++ " CLUSTER BY (" ++
          String.intercalate ", " ti.ClusterKeys ++ ")"]
      else s1
  let statements :=
    if ti.Comment ≠ oldti.Comment then
      statements ++ ["COMMENT ON " ++ typestring ++ " " ++ SQLFullName ti ++
        " IS '" ++ parseComment ti.Comment ++ "'"]
    else statements
  let statements :=
    if mapsDeepEqual ti.Properties oldti.Properties then statements
    else
      let removeProps := diffRemoveProps ti oldti
      let s2 :=
        if 0 < removeProps.length then
          statements ++ ["ALTER " ++ typestring ++ " " ++ SQLFullName ti ++
            " UNSET TBLPROPERTIES IF EXISTS (" ++
            String.intercalate "," removeProps ++ ")"]
        else statements
      s2 ++ ["ALTER " ++ typestring ++ " " ++ SQLFullName ti ++
        " SET TBLPROPERTIES (" ++ serializeProperties ti ++ ")"]
  (getStatementsForColumnDiffs ti oldti statements typestring, none)

/-- The fixed type alias table `columnTypeAliases`. -/
def columnTypeAliases : List (String × String) :=
  [ ("integer", "int"),
    ("long", "bigint"),
    ("real", "float"),
    ("short", "smallint"),
    ("byte", "tinyint"),
    ("decimal", "decimal(10,0)"),
    ("dec", "decimal(10,0)"),
    ("numeric", "decimal(10,0)") ]

/-- Model of Go `strings.ToLower` on one character: ASCII upper-case letters
map to lower-case (the type tokens compared by the validators are ASCII;
Go lowers the full Unicode range). -/
def charToLower (c : Char) : Char :=
  if 'A' ≤ c ∧ c ≤ 'Z' then Char.ofNat (c.toNat + 32) else c

/-- Model of Go `strings.ToLower`: character-wise lowering. -/
def stringToLower (s : String) : String :=
  String.mk (s.data.map charToLower)

/-- `getColumnType`: lower-case the type, then apply the alias table. -/
def getColumnType (columnType : String) : String :=
  let caseInsensitiveColumnType := stringToLower columnType
  match columnTypeAliases.find? (fun p => p.1 == caseInsensitiveColumnType) with
  | some p => p.2
  | none => caseInsensitiveColumnType

/-- The indexed loop of `assertNoColumnTypeDiff`, over the position-paired
`(old, new)` columns (the caller guarantees equal counts; `zip` pairs every
position). Returns the first type-change error, `none` when no position
differs. -/
def assertNoColumnTypeDiffLoop :
    List (SqlColumnInfo × SqlColumnInfo) → Option String
  | [] => none
  | (oldCol, newCol) :: rest =>
    if getColumnType oldCol.TypeText ≠ getColumnType newCol.TypeText then
      some "changing the 'type' of an existing column is not supported"
    else assertNoColumnTypeDiffLoop rest

/-- `assertNoColumnTypeDiff` on the two column lists. -/
def assertNoColumnTypeDiff (oldCols newCols : List SqlColumnInfo) :
    Option String :=
  assertNoColumnTypeDiffLoop (oldCols.zip newCols)

/-- The `for name, oldColMap := range oldColsNameToMap` loop of
`assertNoColumnMembershipAndFieldValueUpdate`: for each old column whose name
also appears among the new columns, fail when normalized type, nullability or
comment differs. `find?` models the `newColsNameToMap` lookup (unique names). -/
def assertMembershipLoop (newCols : List SqlColumnInfo) :
    List SqlColumnInfo → Option String
  | [] => none
  | oldCol :: rest =>
    match newCols.find? (fun n => n.Name == oldCol.Name) with
    | some newCol =>
      if getColumnType oldCol.TypeText ≠ getColumnType newCol.TypeText ∨
          oldCol.Nullable ≠ newCol.Nullable ∨ oldCol.Comment ≠ newCol.Comment then
        some "detected changes in both number of columns and existing column field values, please do not change number of columns and update column values at the same time"
      else assertMembershipLoop newCols rest
    | none => assertMembershipLoop newCols rest

/-- `assertNoColumnMembershipAndFieldValueUpdate` on the two column lists. -/
def assertNoColumnMembershipAndFieldValueUpdate
    (oldCols newCols : List SqlColumnInfo) : Option String :=
  assertMembershipLoop newCols oldCols

/-- Boolean test that `pat` is an initial segment of `s` (statement
vocabulary, used to phrase substring facts about generated SQL text). -/
def startsWithChars : List Char → List Char → Bool
  | [], _ => true
  | _ :: _, [] => false
  | p :: ps, c :: cs => p == c && startsWithChars ps cs

/-- Boolean substring test over character lists (statement vocabulary). -/
def hasSub (pat : List Char) : List Char → Bool
  | [] => pat.isEmpty
  | c :: rest => startsWithChars pat (c :: rest) || hasSub pat rest

/-- A concrete managed base table shared by the concrete instances below. -/
def sampleTable : SqlTableInfo :=
  { Name := "t", CatalogName := "c", SchemaName := "s", TableType := "MANAGED",
    DataSourceFormat := "DELTA", ColumnInfos := [], Partitions := [],
    ClusterKeys := [], StorageLocation := "", StorageCredentialName := "",
    ViewDefinition := "", Comment := "", Properties := [], Options := [] }

/-- `escapeQuotes` never produces the empty list from a non-empty input. -/
theorem escapeQuotes_eq_nil {w : List Char} (h : escapeQuotes w = []) : w = [] := by
  cases w with
  | nil => rfl
  | cons c rest =>
    rw [escapeQuotes] at h
    by_cases hc : c = '\'' <;> simp [hc] at h

/-- The head of `escapeQuotes` output is never a bare quote: quotes are always
emitted behind their escaping backslash. -/
theorem escapeQuotes_head_ne {w : List Char} {h : Char} {t : List Char}
    (hw : escapeQuotes w = h :: t) : h ≠ '\'' := by
  cases w with
  | nil => simp [escapeQuotes] at hw
  | cons c rest =>
    rw [escapeQuotes] at hw
    by_cases hc : c = '\''
    · rw [if_pos hc] at hw
      injection hw with h1 h2
      rw [← h1]
      decide
    · rw [if_neg hc] at hw
      injection hw with h1 h2
      rw [← h1]
      exact hc

/-- Unescaping inverts escaping: the left-to-right scan of `unescapeQuotes`
only merges the backslash-quote pairs `escapeQuotes` inserted. -/
theorem unescapeQuotes_escapeQuotes (w : List Char) :
    unescapeQuotes (escapeQuotes w) = w := by
  induction w with
  | nil => rfl
  | cons c rest ih =>
    by_cases hc : c = '\''
    · subst hc
      rw [escapeQuotes, if_pos rfl, unescapeQuotes]
      simp [ih]
    · rw [escapeQuotes, if_neg hc]
      cases hrest : escapeQuotes rest with
      | nil =>
        rw [escapeQuotes_eq_nil hrest]
        rfl
      | cons h t =>
        have hh : h ≠ '\'' := escapeQuotes_head_ne hrest
        rw [unescapeQuotes]
        have hcond : (c = '\\' && h = '\'') = false := by
          simp [hh]
        rw [hcond]
        simp only [Bool.false_eq_true, if_false]
        rw [← hrest, ih]

/-- `reflect.DeepEqual` is reflexive on the map model. -/
theorem mapsDeepEqual_refl (m : List (String × String)) :
    mapsDeepEqual m m = true := by
  simp [mapsDeepEqual, List.all_eq_true]

/-- The positional attribute loop emits nothing when every column is paired
with itself. -/
theorem alterExistingColumnLoop_zip_self (ti : SqlTableInfo) (typestring : String)
    (l : List SqlColumnInfo) :
    alterExistingColumnLoop ti typestring (l.zip l) = [] := by
  induction l with
  | nil => rfl
  | cons c rest ih =>
    rw [List.zip_cons_cons, alterExistingColumnLoop]
    simp only [ne_eq, not_true_eq_false, if_false, List.nil_append]
    exact ih

/-- The `ADD COLUMN` loop is the in-order map over the new (index, column)
pairs whose names are absent from the old name set. -/
theorem addColumnLoop_eq_filter_map (ti : SqlTableInfo) (oldNames : List String)
    (typestring : String) (pairs : List (Nat × SqlColumnInfo)) :
    addColumnLoop ti oldNames typestring pairs =
      (pairs.filter (fun p => !(oldNames.contains p.2.Name))).map
        (fun p => addColumnStmt ti typestring p.1 p.2) := by
  induction pairs with
  | nil => rfl
  | cons p rest ih =>
    obtain ⟨i, c⟩ := p
    rw [addColumnLoop]
    cases h : oldNames.contains c.Name with
    | false =>
      have h' : ¬ c.Name ∈ oldNames := by simpa using h
      simp [h', ih, List.filter_cons]
    | true =>
      have h' : c.Name ∈ oldNames := by simpa using h
      simp [h', ih, List.filter_cons]

/-- A non-empty property map always contributes its `TBLPROPERTIES` fragment
to the create statement. -/
theorem propsFragment_mem (ti : SqlTableInfo) (h : 0 < ti.Properties.length) :
    ("\nTBLPROPERTIES (" ++ serializeProperties ti ++ ")") ∈
      buildTableCreateFragments ti := by
  have hp : propsFragment ti =
      ["\nTBLPROPERTIES (" ++ serializeProperties ti ++ ")"] := by
    unfold propsFragment
    rw [if_pos h]
  unfold buildTableCreateFragments
  rw [hp]
  simp [List.mem_append]

/-- A non-empty option map always contributes its `OPTIONS` fragment to the
create statement. -/
theorem optionsFragment_mem (ti : SqlTableInfo) (h : 0 < ti.Options.length) :
    ("\nOPTIONS (" ++ serializeOptions ti ++ ")") ∈ buildTableCreateFragments ti := by
  have hp : optionsFragment ti = ["\nOPTIONS (" ++ serializeOptions ti ++ ")"] := by
    unfold optionsFragment
    rw [if_pos h]
  unfold buildTableCreateFragments
  rw [hp]
  simp [List.mem_append]

/-- A non-empty partition list always contributes its `PARTITIONED BY`
fragment (raw, comma-joined names) to the create statement. -/
theorem partitionsFragment_mem (ti : SqlTableInfo) (h : 0 < ti.Partitions.length) :
    ("\nPARTITIONED BY (" ++ String.intercalate ", " ti.Partitions ++ ")") ∈
      buildTableCreateFragments ti := by
  have hp : partitionsFragment ti =
      ["\nPARTITIONED BY (" ++ String.intercalate ", " ti.Partitions ++ ")"] := by
    unfold partitionsFragment
    rw [if_pos h]
  unfold buildTableCreateFragments
  rw [hp]
  simp [List.mem_append]

/-- A non-empty cluster-key list always contributes its `CLUSTER BY` fragment
(raw, comma-joined names) to the create statement. -/
theorem clusterKeysFragment_mem (ti : SqlTableInfo) (h : 0 < ti.ClusterKeys.length) :
    ("\nCLUSTER BY (" ++ String.intercalate ", " ti.ClusterKeys ++ ")") ∈
      buildTableCreateFragments ti := by
  have hp : clusterKeysFragment ti =
      ["\nCLUSTER BY (" ++ String.intercalate ", " ti.ClusterKeys ++ ")"] := by
    unfold clusterKeysFragment
    rw [if_pos h]
  unfold buildTableCreateFragments
  rw [hp]
  simp [List.mem_append]

/-- The type-diff loop succeeds exactly when every paired position has equal
normalized types. -/
theorem assertNoColumnTypeDiffLoop_eq_none_iff
    (pairs : List (SqlColumnInfo × SqlColumnInfo)) :
    assertNoColumnTypeDiffLoop pairs = none ↔
      ∀ p ∈ pairs, getColumnType p.1.TypeText = getColumnType p.2.TypeText := by
  induction pairs with
  | nil => simp [assertNoColumnTypeDiffLoop]
  | cons p rest ih =>
    obtain ⟨o, n⟩ := p
    rw [assertNoColumnTypeDiffLoop]
    by_cases h : getColumnType o.TypeText ≠ getColumnType n.TypeText
    · rw [if_pos h]
      simp only [List.mem_cons]
      constructor
      · intro hc
        exact absurd hc (by simp)
      · intro hall
        exact absurd (hall (o, n) (Or.inl rfl)) h
    · rw [if_neg h]
      push_neg at h
      rw [ih]
      constructor
      · intro hall q hq
        rcases List.mem_cons.mp hq with hq | hq
        · rw [hq]
          exact h
        · exact hall q hq
      · intro hall q hq
        exact hall q (List.mem_cons_of_mem _ hq)

/-- The shared-name loop of the membership validator succeeds exactly when
every old column that shares its name with a new column agrees with it on
normalized type, nullability and comment (new names assumed unique, the data
model invariant under which the association-list lookup models the Go map). -/
theorem assertMembershipLoop_eq_none_iff (newCols : List SqlColumnInfo)
    (hnodup : (newCols.map (fun c => c.Name)).Nodup)
    (oldCols : List SqlColumnInfo) :
    assertMembershipLoop newCols oldCols = none ↔
      ∀ o ∈ oldCols, ∀ n ∈ newCols, o.Name = n.Name →
        getColumnType o.TypeText = getColumnType n.TypeText ∧
          o.Nullable = n.Nullable ∧ o.Comment = n.Comment := by
  induction oldCols with
  | nil => simp [assertMembershipLoop]
  | cons o rest ih =>
    rw [assertMembershipLoop]
    cases hf : newCols.find? (fun n => n.Name == o.Name) with
    | none =>
      have hno : ∀ n ∈ newCols, ¬ n.Name = o.Name := by
        intro n hn
        have := List.find?_eq_none.mp hf n hn
        simpa using this
      rw [ih]
      constructor
      · intro hall o' ho'
        rcases List.mem_cons.mp ho' with ho' | ho'
        · intro n hn heq
          exact absurd heq.symm (ho' ▸ hno n hn)
        · exact hall o' ho'
      · intro hall o' ho'
        exact hall o' (List.mem_cons_of_mem _ ho')
    | some newCol =>
      have hname : newCol.Name = o.Name := by
        have := List.find?_some hf
        simpa using this
      have hmemc : newCol ∈ newCols := List.mem_of_find?_eq_some hf
      dsimp only
      by_cases hdiff : getColumnType o.TypeText ≠ getColumnType newCol.TypeText ∨
          o.Nullable ≠ newCol.Nullable ∨ o.Comment ≠ newCol.Comment
      · rw [if_pos hdiff]
        constructor
        · intro hc
          exact absurd hc (by simp)
        · intro hall
          have hagree := hall o (List.mem_cons_self o rest) newCol hmemc hname.symm
          rcases hdiff with h | h | h
          · exact absurd hagree.1 h
          · exact absurd hagree.2.1 h
          · exact absurd hagree.2.2 h
      · rw [if_neg hdiff]
        push_neg at hdiff
        rw [ih]
        constructor
        · intro hall o' ho'
          rcases List.mem_cons.mp ho' with ho' | ho'
          · subst ho'
            intro n hn heq
            have : n = newCol :=
              List.inj_on_of_nodup_map hnodup hn hmemc (heq.symm.trans hname.symm)
            subst this
            exact ⟨hdiff.1, hdiff.2.1, hdiff.2.2⟩
          · exact hall o' ho'
        · intro hall o' ho'
          exact hall o' (List.mem_cons_of_mem _ ho')

/-- Concrete table whose property and option maps are non-empty but contain
managed keys only. -/
def allManagedTable : SqlTableInfo :=
  { sampleTable with
    Properties := [("delta.minReaderVersion", "2")],
    Options := [("delta.checkpointPolicy", "classic")] }

/-- Concrete previous table holding one managed property. -/
def managedPrevTable : SqlTableInfo :=
  { sampleTable with Properties := [("delta.minReaderVersion", "2")] }

/-- Concrete desired table for the managed-key witness: keeps the managed key,
drops `baz`. -/
def keepManagedDesired : SqlTableInfo :=
  { sampleTable with Properties := [("delta.minReaderVersion", "2"), ("foo", "bar")] }

/-- Concrete previous table for the managed-key witness. -/
def keepManagedPrev : SqlTableInfo :=
  { sampleTable with Properties := [("delta.minReaderVersion", "2"), ("baz", "1")] }

/-- Concrete previous table with a single column `a`. -/
def renamePrevTable : SqlTableInfo :=
  { sampleTable with
    ColumnInfos := [{ Name := "a", TypeText := "int", Comment := "", Nullable := true }] }

/-- Concrete desired table with a single column `b` (same attributes). -/
def renameDesiredTable : SqlTableInfo :=
  { sampleTable with
    ColumnInfos := [{ Name := "b", TypeText := "int", Comment := "", Nullable := true }] }

/-- Concrete partitioned table for the identifier-quoting instances. -/
def partitionedTable : SqlTableInfo :=
  { sampleTable with
    Partitions := ["univ"],
    ColumnInfos := [{ Name := "id", TypeText := "int", Comment := "", Nullable := true }] }

/-- Concrete clustered table for the identifier-quoting witness. -/
def clusteredTable : SqlTableInfo :=
  { sampleTable with ClusterKeys := ["ck"] }

/-- Concrete previous table `[a]` for the add/remove-column instances. -/
def addColumnPrevTable : SqlTableInfo :=
  { sampleTable with
    ColumnInfos := [{ Name := "a", TypeText := "int", Comment := "", Nullable := true }] }

/-- Concrete desired table `[a, c]` for the add/remove-column instances. -/
def addColumnDesiredTable : SqlTableInfo :=
  { sampleTable with
    ColumnInfos := [{ Name := "a", TypeText := "int", Comment := "", Nullable := true },
                    { Name := "c", TypeText := "int", Comment := "", Nullable := true }] }

/-- C3: for every table description `x`, diffing `x` against itself yields the
empty statement list and no error. -/
theorem C3_diff_self_empty (x : SqlTableInfo) : diff x x = ([], none) := by
  have hm := mapsDeepEqual_refl x.Properties
  simp [diff, hm, getStatementsForColumnDiffs, alterExistingColumnStatements,
    alterExistingColumnLoop_zip_self]

/-- C8: the comment escaping function `parseComment` is idempotent — a
pre-escaped comment receives the same single level of escaping, not double —
and equivalently, over character lists, escaping after unescaping an escaped
string reproduces the escaped string. -/
theorem C8_parseComment_idempotent :
    (∀ s : String, parseComment (parseComment s) = parseComment s) ∧
    (∀ l : List Char,
      escapeQuotes (unescapeQuotes (escapeQuotes l)) = escapeQuotes l) := by
  constructor
  · intro s
    show String.mk (escapeQuotes (unescapeQuotes (escapeQuotes (unescapeQuotes s.data)))) =
      String.mk (escapeQuotes (unescapeQuotes s.data))
    rw [unescapeQuotes_escapeQuotes]
  · intro l
    rw [unescapeQuotes_escapeQuotes]

/-- C10: `diff` is total and never fails — its error component is `nil` for
every pair of table descriptions, mirroring the single
`return statements, nil` exit of the source. -/
theorem C10_diff_error_always_none (ti oldti : SqlTableInfo) :
    (diff ti oldti).2 = none := rfl

/-- C1 (counterexample): with a previous map holding only the managed key
`delta.minReaderVersion` and a desired map without it, `diff` does list that
managed key inside the `UNSET TBLPROPERTIES` clause — the claim that a
managed key never appears there fails on `diff` taken by itself. -/
theorem C1_counterexample :
    sqlTableIsManagedProperty "delta.minReaderVersion" = true ∧
    (diff sampleTable managedPrevTable).1 =
      ["ALTER TABLE `c`.`s`.`t` UNSET TBLPROPERTIES IF EXISTS (delta.minReaderVersion)",
       "ALTER TABLE `c`.`s`.`t` SET TBLPROPERTIES ()"] ∧
    hasSub "UNSET TBLPROPERTIES IF EXISTS (delta.minReaderVersion)".data
      (String.join (diff sampleTable managedPrevTable).1).data = true := by
  refine ⟨by decide, by decide, by decide⟩

/-- C1 (amended): the keys of the `UNSET TBLPROPERTIES` clause are exactly
`diffRemoveProps` — every key of the previous map absent from the desired
map, with no managed-key exemption inside `diff` itself. The exemption is
applied one layer up, in the provider's plan customization, which copies
managed keys removed from the desired property map back into it; whenever the
desired map retains every managed key of the previous map, no managed key is
listed for removal. -/
theorem C1_amended_no_managed_key_removed (ti oldti : SqlTableInfo)
    (h : oldti.Properties.all
      (fun p => !(sqlTableIsManagedProperty p.1) ||
        (mapLookup ti.Properties p.1).isSome) = true) :
    ∀ k ∈ diffRemoveProps ti oldti, sqlTableIsManagedProperty k = false := by
  intro k hk
  unfold diffRemoveProps at hk
  simp only [List.mem_map, List.mem_filter] at hk
  obtain ⟨p, ⟨hmem, hnone⟩, hp1⟩ := hk
  rw [List.all_eq_true] at h
  have hp := h p hmem
  subst hp1
  rcases (Bool.or_eq_true _ _).mp hp with h1 | h2
  · simpa using h1
  · exfalso
    have : mapLookup ti.Properties p.1 = none := by
      simpa using hnone
    rw [this] at h2
    simp at h2

/-- C1 (witness): a concrete desired/previous pair in which the desired map
retains the previous managed key; the removal list (`baz` only) carries no
managed key. -/
theorem C1_witness :
    keepManagedPrev.Properties.all
      (fun p => !(sqlTableIsManagedProperty p.1) ||
        (mapLookup keepManagedDesired.Properties p.1).isSome) = true ∧
    ∀ k ∈ diffRemoveProps keepManagedDesired keepManagedPrev,
      sqlTableIsManagedProperty k = false :=
  ⟨by decide, C1_amended_no_managed_key_removed keepManagedDesired keepManagedPrev (by decide)⟩

/-- C2 (counterexample): a table whose property and option maps are non-empty
but all-managed still gets `TBLPROPERTIES ()` and `OPTIONS ()` clauses — the
clauses are gated on the raw map size, not on the filtered list, so they are
not omitted as the claim states. -/
theorem C2_counterexample :
    allManagedTable.Properties ≠ [] ∧
    allManagedTable.Properties.all (fun p => sqlTableIsManagedProperty p.1) = true ∧
    allManagedTable.Options ≠ [] ∧
    allManagedTable.Options.all (fun p => sqlTableIsManagedProperty p.1) = true ∧
    buildTableCreateStatement allManagedTable =
      "CREATE TABLE `c`.`s`.`t`\nUSING DELTA\nTBLPROPERTIES ()\nOPTIONS ();" ∧
    hasSub "\nTBLPROPERTIES ()".data
      (buildTableCreateStatement allManagedTable).data = true ∧
    hasSub "\nOPTIONS ()".data
      (buildTableCreateStatement allManagedTable).data = true := by
  refine ⟨by decide, by decide, by decide, by decide, by decide, by decide, by decide⟩

/-- C2 (amended): the `TBLPROPERTIES` (resp. `OPTIONS`) clause is omitted
exactly when the raw property (resp. option) map is empty; whenever the map
is non-empty the clause is emitted and its body lists the non-managed pairs
only — so a non-empty all-managed map yields the empty clause
`TBLPROPERTIES ()` rather than an omitted clause. -/
theorem C2_amended_clause_gating (ti : SqlTableInfo) :
    (ti.Properties = [] → propsFragment ti = []) ∧
    (ti.Properties ≠ [] →
      ("\nTBLPROPERTIES (" ++ serializeProperties ti ++ ")") ∈
        buildTableCreateFragments ti) ∧
    (ti.Properties.all (fun p => sqlTableIsManagedProperty p.1) = true →
      serializeProperties ti = "") ∧
    (ti.Options = [] → optionsFragment ti = []) ∧
    (ti.Options ≠ [] →
      ("\nOPTIONS (" ++ serializeOptions ti ++ ")") ∈ buildTableCreateFragments ti) ∧
    (ti.Options.all (fun p => sqlTableIsManagedProperty p.1) = true →
      serializeOptions ti = "") := by
  refine ⟨?_, ?_, ?_, ?_, ?_, ?_⟩
  · intro h
    unfold propsFragment
    rw [if_neg]
    rw [h]
    simp
  · intro h
    exact propsFragment_mem ti (List.length_pos.mpr h)
  · intro h
    unfold serializeProperties
    rw [List.all_eq_true] at h
    have : ti.Properties.filter (fun p => !(sqlTableIsManagedProperty p.1)) = [] := by
      rw [List.filter_eq_nil]
      intro p hp
      simp [h p hp]
    rw [this]
    rfl
  · intro h
    unfold optionsFragment
    rw [if_neg]
    rw [h]
    simp
  · intro h
    exact optionsFragment_mem ti (List.length_pos.mpr h)
  · intro h
    unfold serializeOptions
    rw [List.all_eq_true] at h
    have : ti.Options.filter (fun p => !(sqlTableIsManagedProperty p.1)) = [] := by
      rw [List.filter_eq_nil]
      intro p hp
      simp [h p hp]
    rw [this]
    rfl

/-- C2 (witness): the amended statement at the concrete all-managed table —
both clauses present, both bodies empty. -/
theorem C2_witness :
    allManagedTable.Properties ≠ [] ∧
    ("\nTBLPROPERTIES (" ++ serializeProperties allManagedTable ++ ")") ∈
      buildTableCreateFragments allManagedTable ∧
    serializeProperties allManagedTable = "" ∧
    allManagedTable.Options ≠ [] ∧
    ("\nOPTIONS (" ++ serializeOptions allManagedTable ++ ")") ∈
      buildTableCreateFragments allManagedTable ∧
    serializeOptions allManagedTable = "" :=
  ⟨by decide,
   (C2_amended_clause_gating allManagedTable).2.1 (by decide),
   (C2_amended_clause_gating allManagedTable).2.2.1 (by decide),
   by decide,
   (C2_amended_clause_gating allManagedTable).2.2.2.2.1 (by decide),
   (C2_amended_clause_gating allManagedTable).2.2.2.2.2 (by decide)⟩

/-- C5: with differing column counts (the dispatch condition under which it
runs) and the unique-name invariant, the membership validator fails exactly
when some column name present in both sides differs in normalized type,
nullability or comment; it succeeds when no shared name differs. -/
theorem C5_membership_validator (oldCols newCols : List SqlColumnInfo)
    (hlen : oldCols.length ≠ newCols.length)
    (hnodupOld : (oldCols.map (fun c => c.Name)).Nodup)
    (hnodupNew : (newCols.map (fun c => c.Name)).Nodup) :
    assertNoColumnMembershipAndFieldValueUpdate oldCols newCols = none ↔
      ∀ o ∈ oldCols, ∀ n ∈ newCols, o.Name = n.Name →
        getColumnType o.TypeText = getColumnType n.TypeText ∧
          o.Nullable = n.Nullable ∧ o.Comment = n.Comment :=
  assertMembershipLoop_eq_none_iff newCols hnodupNew oldCols

/-- C5 (witness): the spec's mixed-change instance — previous
`[a(int, not null)]`, desired `[a(bigint, not null), b(string)]` — satisfies
the hypotheses, and the characterization instance holds there (the validator
does fail: shared column `a` changed type while counts differ). -/
theorem C5_witness :
    ([{ Name := "a", TypeText := "int", Comment := "", Nullable := false }] :
        List SqlColumnInfo).length ≠
      ([{ Name := "a", TypeText := "bigint", Comment := "", Nullable := false },
        { Name := "b", TypeText := "string", Comment := "", Nullable := true }] :
        List SqlColumnInfo).length ∧
    (assertNoColumnMembershipAndFieldValueUpdate
        [{ Name := "a", TypeText := "int", Comment := "", Nullable := false }]
        [{ Name := "a", TypeText := "bigint", Comment := "", Nullable := false },
         { Name := "b", TypeText := "string", Comment := "", Nullable := true }] =
          none ↔
      ∀ o ∈ ([{ Name := "a", TypeText := "int", Comment := "", Nullable := false }] :
          List SqlColumnInfo),
        ∀ n ∈ ([{ Name := "a", TypeText := "bigint", Comment := "", Nullable := false },
                { Name := "b", TypeText := "string", Comment := "", Nullable := true }] :
            List SqlColumnInfo),
          o.Name = n.Name →
            getColumnType o.TypeText = getColumnType n.TypeText ∧
              o.Nullable = n.Nullable ∧ o.Comment = n.Comment) :=
  ⟨by decide,
   C5_membership_validator _ _ (by decide) (by decide) (by decide)⟩

/-- C6: with equal column counts (the dispatch condition under which it
runs), the type validator succeeds exactly when every paired position has
equal normalized types, where normalization lower-cases and applies the fixed
alias table; in particular `Integer` versus `int` does not fail. -/
theorem C6_type_change_validator (oldCols newCols : List SqlColumnInfo)
    (hlen : oldCols.length = newCols.length) :
    (assertNoColumnTypeDiff oldCols newCols = none ↔
      ∀ p ∈ oldCols.zip newCols,
        getColumnType p.1.TypeText = getColumnType p.2.TypeText) ∧
    getColumnType "Integer" = getColumnType "int" ∧
    getColumnType "integer" = "int" ∧
    getColumnType "long" = "bigint" ∧
    getColumnType "real" = "float" ∧
    getColumnType "short" = "smallint" ∧
    getColumnType "byte" = "tinyint" ∧
    getColumnType "decimal" = "decimal(10,0)" ∧
    getColumnType "dec" = "decimal(10,0)" ∧
    getColumnType "numeric" = "decimal(10,0)" ∧
    assertNoColumnTypeDiff
      [{ Name := "a", TypeText := "Integer", Comment := "", Nullable := true }]
      [{ Name := "a", TypeText := "int", Comment := "", Nullable := true }] = none :=
  ⟨assertNoColumnTypeDiffLoop_eq_none_iff _,
   by decide, by decide, by decide, by decide, by decide, by decide, by decide,
   by decide, by decide, by decide⟩

/-- C6 (witness): the spec's type-change instance — previous `[a(int)]`,
desired `[a(string)]`, equal counts — satisfies the hypothesis; the
characterization instance holds there (the validator does fail, since
`int ≠ string` after normalization). -/
theorem C6_witness :
    ([{ Name := "a", TypeText := "int", Comment := "", Nullable := true }] :
        List SqlColumnInfo).length =
      ([{ Name := "a", TypeText := "string", Comment := "", Nullable := true }] :
        List SqlColumnInfo).length ∧
    ((assertNoColumnTypeDiff
        [{ Name := "a", TypeText := "int", Comment := "", Nullable := true }]
        [{ Name := "a", TypeText := "string", Comment := "", Nullable := true }] =
          none ↔
      ∀ p ∈ ([{ Name := "a", TypeText := "int", Comment := "", Nullable := true }] :
            List SqlColumnInfo).zip
          ([{ Name := "a", TypeText := "string", Comment := "", Nullable := true }] :
            List SqlColumnInfo),
        getColumnType p.1.TypeText = getColumnType p.2.TypeText) ∧
      getColumnType "Integer" = getColumnType "int" ∧
      getColumnType "integer" = "int" ∧
      getColumnType "long" = "bigint" ∧
      getColumnType "real" = "float" ∧
      getColumnType "short" = "smallint" ∧
      getColumnType "byte" = "tinyint" ∧
      getColumnType "decimal" = "decimal(10,0)" ∧
      getColumnType "dec" = "decimal(10,0)" ∧
      getColumnType "numeric" = "decimal(10,0)" ∧
      assertNoColumnTypeDiff
        [{ Name := "a", TypeText := "Integer", Comment := "", Nullable := true }]
        [{ Name := "a", TypeText := "int", Comment := "", Nullable := true }] = none) :=
  ⟨by decide, C6_type_change_validator _ _ (by decide)⟩

/-- C4: on the add/remove path (column counts differ), the column stage of
`diff` appends to the accumulated statements: first at most one
`DROP COLUMN IF EXISTS` statement — present exactly when some previous column
name is absent from the desired names, hence preceding every `ADD COLUMN`
statement — then, in desired order, exactly one `ADD COLUMN` statement per
desired column whose name is absent from the previous names, with `FIRST` for
desired index 0 and `AFTER <name of the desired column one index back>`
otherwise. -/
theorem C4_add_remove_column_statements (ti oldti : SqlTableInfo)
    (statements : List String) (typestring : String)
    (hlen : ti.ColumnInfos.length ≠ oldti.ColumnInfos.length) :
    getStatementsForColumnDiffs ti oldti statements typestring =
      statements ++
      (if oldti.ColumnInfos.filter
            (fun c => !((ti.ColumnInfos.map (fun d => d.Name)).contains c.Name)) = []
       then []
       else ["ALTER " ++ typestring ++ " " ++ SQLFullName ti ++
         " DROP COLUMN IF EXISTS (" ++
         String.intercalate ", "
           ((oldti.ColumnInfos.filter
              (fun c => !((ti.ColumnInfos.map (fun d => d.Name)).contains c.Name))).map
             getWrappedColumnName) ++ ")"]) ++
      (ti.ColumnInfos.enum.filter
        (fun p => !((oldti.ColumnInfos.map (fun d => d.Name)).contains p.2.Name))).map
        (fun p =>
          if p.1 = 0 then
            "ALTER " ++ typestring ++ " " ++ SQLFullName ti ++ " ADD COLUMN " ++
              serializeColumnInfo p.2 ++ " FIRST"
          else
            "ALTER " ++ typestring ++ " " ++ SQLFullName ti ++ " ADD COLUMN " ++
              serializeColumnInfo p.2 ++ " AFTER " ++
              (ti.ColumnInfos.getD (p.1 - 1) default).Name) := by
  rw [getStatementsForColumnDiffs, if_pos hlen]
  unfold addOrRemoveColumnStatements
  dsimp only
  rw [addColumnLoop_eq_filter_map]
  cases hr : oldti.ColumnInfos.filter
      (fun c => !((ti.ColumnInfos.map (fun d => d.Name)).contains c.Name)) with
  | nil =>
    simp [addColumnStmt]
  | cons f fs =>
    simp [addColumnStmt, List.append_assoc]

/-- Concrete previous table `[a, b]` for the drop-and-add witness. -/
def dropAddPrevTable : SqlTableInfo :=
  { sampleTable with
    ColumnInfos := [{ Name := "a", TypeText := "int", Comment := "", Nullable := true },
                    { Name := "b", TypeText := "int", Comment := "", Nullable := true }] }

/-- Concrete desired table `[a, c, d]` for the drop-and-add witness. -/
def dropAddDesiredTable : SqlTableInfo :=
  { sampleTable with
    ColumnInfos := [{ Name := "a", TypeText := "int", Comment := "", Nullable := true },
                    { Name := "c", TypeText := "int", Comment := "", Nullable := true },
                    { Name := "d", TypeText := "int", Comment := "", Nullable := true }] }

/-- C4 (witness): previous `[a, b]`, desired `[a, c, d]` (counts 3 vs 2): one
`DROP COLUMN IF EXISTS` for `b` first, then `ADD COLUMN` for `c` after `a`
and for `d` after `c`, in desired order. -/
theorem C4_witness :
    dropAddDesiredTable.ColumnInfos.length ≠ dropAddPrevTable.ColumnInfos.length ∧
    getStatementsForColumnDiffs dropAddDesiredTable dropAddPrevTable [] "TABLE" =
      ["ALTER TABLE `c`.`s`.`t` DROP COLUMN IF EXISTS (`b`)",
       "ALTER TABLE `c`.`s`.`t` ADD COLUMN `c` int AFTER a",
       "ALTER TABLE `c`.`s`.`t` ADD COLUMN `d` int AFTER c"] :=
  ⟨by decide,
   (C4_add_remove_column_statements dropAddDesiredTable dropAddPrevTable []
      "TABLE" (by decide)).trans (by decide)⟩

/-- C7 (counterexample): for previous `[a]` and desired `[b]` with identical
type, nullability and comment, the single emitted statement spells the
keyword as lowercase `to` — it contains `RENAME COLUMN 'a' to 'b'` and not
the claimed `RENAME COLUMN 'a' TO 'b'` (backtick-wrapped names). -/
theorem C7_counterexample :
    (diff renameDesiredTable renamePrevTable).1 =
      ["ALTER TABLE `c`.`s`.`t` RENAME COLUMN `a` to `b`"] ∧
    hasSub "RENAME COLUMN `a` TO `b`".data
      (String.join (diff renameDesiredTable renamePrevTable).1).data = false ∧
    hasSub "RENAME COLUMN `a` to `b`".data
      (String.join (diff renameDesiredTable renamePrevTable).1).data = true := by
  refine ⟨by decide, by decide, by decide⟩

/-- C7 (amended): for a previous column list `[{name: a}]` and desired
`[{name: b}]` with identical type, nullability and comment (all other table
attributes equal), `diff` emits exactly one statement — the rename, written
with a lowercase `to` keyword — and no other statement. -/
theorem C7_amended_rename_only (x : SqlTableInfo) (a b t cm : String) (nl : Bool)
    (hab : a ≠ b) :
    diff { x with ColumnInfos := [{ Name := b, TypeText := t, Comment := cm, Nullable := nl }] }
         { x with ColumnInfos := [{ Name := a, TypeText := t, Comment := cm, Nullable := nl }] } =
      (["ALTER " ++ getTableTypeString x ++ " " ++ SQLFullName x ++
        " RENAME COLUMN " ++ ("`" ++ a ++ "`") ++ " to " ++ ("`" ++ b ++ "`")], none) := by
  have hba : ¬ (b = a) := fun h => hab h.symm
  simp [diff, getStatementsForColumnDiffs, alterExistingColumnStatements,
    alterExistingColumnLoop, mapsDeepEqual_refl, getTableTypeString,
    getWrappedColumnName, SQLFullName, hba]

/-- C7 (witness): the amended statement at the concrete rename pair. -/
theorem C7_witness :
    ("a" : String) ≠ "b" ∧
    diff { sampleTable with
            ColumnInfos := [{ Name := "b", TypeText := "int", Comment := "", Nullable := true }] }
         { sampleTable with
            ColumnInfos := [{ Name := "a", TypeText := "int", Comment := "", Nullable := true }] } =
      (["ALTER " ++ getTableTypeString sampleTable ++ " " ++ SQLFullName sampleTable ++
        " RENAME COLUMN " ++ ("`" ++ "a" ++ "`") ++ " to " ++ ("`" ++ "b" ++ "`")], none) :=
  ⟨by decide, C7_amended_rename_only sampleTable "a" "b" "int" "" true (by decide)⟩

/-- C9 (counterexample): partition names and the `ADD COLUMN ... AFTER`
reference column are embedded raw: the create statement for a table
partitioned by `univ` contains `PARTITIONED BY (univ)` but never the
backtick-wrapped `univ`, and the add-column diff statement ends in `AFTER a`
with no backticks around `a`. -/
theorem C9_counterexample :
    hasSub "\nPARTITIONED BY (univ)".data
      (buildTableCreateStatement partitionedTable).data = true ∧
    hasSub "`univ`".data (buildTableCreateStatement partitionedTable).data = false ∧
    (diff addColumnDesiredTable addColumnPrevTable).1 =
      ["ALTER TABLE `c`.`s`.`t` ADD COLUMN `c` int AFTER a"] ∧
    hasSub "AFTER `a`".data
      (String.join (diff addColumnDesiredTable addColumnPrevTable).1).data = false ∧
    hasSub " AFTER a".data
      (String.join (diff addColumnDesiredTable addColumnPrevTable).1).data = true := by
  refine ⟨by decide, by decide, by decide, by decide, by decide⟩

/-- C9 (amended): identifiers routed through `getWrappedColumnName` and
`SQLFullName` — column names in column definitions and the three-part table
name — are backtick-wrapped, but the column names of the `PARTITIONED BY` and
`CLUSTER BY` lists are joined into the create statement raw, and the
reference column of an `ADD COLUMN ... AFTER` clause is the raw `Name` field,
not the wrapped form. -/
theorem C9_amended_identifier_quoting :
    (∀ ci : SqlColumnInfo, getWrappedColumnName ci = "`" ++ ci.Name ++ "`") ∧
    (∀ x : SqlTableInfo, SQLFullName x =
      "`" ++ x.CatalogName ++ "`.`" ++ x.SchemaName ++ "`.`" ++ x.Name ++ "`") ∧
    (∀ ci : SqlColumnInfo, ci.Nullable = true → ci.Comment = "" →
      serializeColumnInfo ci = ("`" ++ ci.Name ++ "`") ++ " " ++ ci.TypeText) ∧
    (∀ x : SqlTableInfo, x.Partitions ≠ [] →
      ("\nPARTITIONED BY (" ++ String.intercalate ", " x.Partitions ++ ")") ∈
        buildTableCreateFragments x) ∧
    (∀ x : SqlTableInfo, x.ClusterKeys ≠ [] →
      ("\nCLUSTER BY (" ++ String.intercalate ", " x.ClusterKeys ++ ")") ∈
        buildTableCreateFragments x) ∧
    (∀ (ti : SqlTableInfo) (typestring : String) (i : Nat) (c : SqlColumnInfo),
      i ≠ 0 →
      addColumnStmt ti typestring i c =
        "ALTER " ++ typestring ++ " " ++ SQLFullName ti ++ " ADD COLUMN " ++
          serializeColumnInfo c ++ " AFTER " ++
          (ti.ColumnInfos.getD (i - 1) default).Name) := by
  refine ⟨fun ci => rfl, fun x => rfl, ?_, ?_, ?_, ?_⟩
  · intro ci h1 h2
    simp [serializeColumnInfo, h1, h2, getWrappedColumnName]
  · intro x h
    exact partitionsFragment_mem x (List.length_pos.mpr h)
  · intro x h
    exact clusterKeysFragment_mem x (List.length_pos.mpr h)
  · intro ti typestring i c hi
    rw [addColumnStmt, if_neg hi]

/-- C9 (witness): the amended statement instantiated — the raw
`PARTITIONED BY` fragment of the partitioned table, the raw `CLUSTER BY`
fragment of the clustered table, and the raw `AFTER` reference of the
add-column statement at index 1. -/
theorem C9_witness :
    ("\nPARTITIONED BY (" ++ String.intercalate ", " partitionedTable.Partitions ++ ")") ∈
      buildTableCreateFragments partitionedTable ∧
    ("\nCLUSTER BY (" ++ String.intercalate ", " clusteredTable.ClusterKeys ++ ")") ∈
      buildTableCreateFragments clusteredTable ∧
    addColumnStmt addColumnDesiredTable "TABLE" 1
        { Name := "c", TypeText := "int", Comment := "", Nullable := true } =
      "ALTER " ++ "TABLE" ++ " " ++ SQLFullName addColumnDesiredTable ++
        " ADD COLUMN " ++
        serializeColumnInfo
          { Name := "c", TypeText := "int", Comment := "", Nullable := true } ++
        " AFTER " ++
        (addColumnDesiredTable.ColumnInfos.getD 0 default).Name :=
  ⟨C9_amended_identifier_quoting.2.2.2.1 partitionedTable (by decide),
   C9_amended_identifier_quoting.2.2.2.2.1 clusteredTable (by decide),
   C9_amended_identifier_quoting.2.2.2.2.2 addColumnDesiredTable "TABLE" 1 _ (by decide)⟩
